import Mathlib

/-!
# Verification of the Nautilus FFI signing library

Shallow embedding of `src/nautilus-server/src/lib.rs`: an attested signing
service exposing Ed25519 keypair handles, hex public-key export, Nitro
attestation requests, and two intent-message signing entry points (structured
JSON and flat BCS).

Modelling conventions:
* Bytes are `Nat`s; `ValidBytes` states every entry is `< 256`.
* The external Ed25519 primitive (fastcrypto) is modelled as an abstract
  signature scheme `SigScheme`; `SigCorrect` is the usual correctness
  property of the external library, which the spec treats as a delegated
  collaborator.
* The BCS encoder (`bcs::to_bytes`) is embedded concretely: ULEB128 variant
  indices and sequence lengths, little-endian `u64`, raw byte payloads.
* The NSM attestation driver (`nsm_api`) is modelled as an oracle
  `Request → Response`; driver interaction is recorded as an event trace so
  that session open/close discipline is provable.
* serde_json output is embedded as a `Json` AST mirroring serde's derived
  encoding (externally tagged enums: a unit variant renders as its name).
-/

namespace Nautilus

/-- Every entry of the list is a byte value (`< 256`). -/
def ValidBytes (bs : List Nat) : Prop := ∀ b ∈ bs, b < 256

instance (bs : List Nat) : Decidable (ValidBytes bs) := by
  unfold ValidBytes; infer_instance

/-! ## Hex encoding (fastcrypto `Hex::encode`: lowercase, no prefix) -/

/-- The lowercase hex digit for a nibble. -/
def hexDigit (n : Nat) : Char := "0123456789abcdef".toList.getD n 'x'

/-- Hex characters of a byte list, two lowercase digits per byte. -/
def hexChars : List Nat → List Char
  | [] => []
  | b :: bs => hexDigit (b / 16) :: hexDigit (b % 16) :: hexChars bs

/-- `Hex::encode`: lowercase hex string of a byte list. -/
def hexEncode (bs : List Nat) : String := String.mk (hexChars bs)

/-- Numeric value of a lowercase hex digit character (0 on junk). -/
def hexValue (c : Char) : Nat :=
  if '0' ≤ c ∧ c ≤ '9' then c.toNat - 48
  else if 'a' ≤ c ∧ c ≤ 'f' then c.toNat - 87
  else 0

/-- Decode pairs of hex characters back to bytes. -/
def hexDecodeChars : List Char → List Nat
  | c1 :: c2 :: rest => (16 * hexValue c1 + hexValue c2) :: hexDecodeChars rest
  | _ => []

/-- Decode a hex string back to its byte list. -/
def hexDecode (s : String) : List Nat := hexDecodeChars s.data

/-- Character is one of `0-9a-f`. -/
def isLowerHexDigit (c : Char) : Bool := ("0123456789abcdef".toList).contains c

/-! ## BCS primitives -/

/-- ULEB128 encoding of a natural number (BCS variant indices and lengths). -/
def uleb128 (n : Nat) : List Nat :=
  if h : n < 128 then [n]
  else (n % 128 + 128) :: uleb128 (n / 128)
  decreasing_by exact Nat.div_lt_self (by omega) (by omega)

/-- Little-endian 8-byte encoding of a `u64` value. -/
def u64le (n : Nat) : List Nat :=
  [n % 256, n / 256 % 256, n / 65536 % 256, n / 16777216 % 256,
   n / 4294967296 % 256, n / 1099511627776 % 256,
   n / 281474976710656 % 256, n / 72057594037927936 % 256]

/-! ## Data model (`lib.rs` types) -/

/-- `IntentScope`: enumerated purpose tag; single variant `ProcessData = 0`. -/
inductive IntentScope where
  | ProcessData : IntentScope
  deriving DecidableEq, Repr

/-- `IntentMessage<Vec<u8>>`: the signed envelope over a raw byte payload. -/
structure IntentMessage where
  intent : IntentScope
  timestamp_ms : Nat
  data : List Nat
  deriving DecidableEq, Repr

/-- `IntentMessageBytes`: envelope with `serde_bytes::ByteBuf` data; same
logical fields as `IntentMessage<Vec<u8>>`. -/
structure IntentMessageBytes where
  intent : IntentScope
  timestamp_ms : Nat
  data : List Nat
  deriving DecidableEq, Repr

/-- `ProcessedDataResponse<IntentMessageBytes>`: structured signing output. -/
structure ProcessedDataResponse where
  response : IntentMessageBytes
  signature : String
  deriving DecidableEq, Repr

/-- `SignedBcsResponse`: flat signing output (canonical bytes + signature). -/
structure SignedBcsResponse where
  intent_message_bcs : String
  signature : String
  deriving DecidableEq, Repr

/-- BCS of `IntentScope`: ULEB128 variant index (`ProcessData` ↦ `[0]`). -/
def bcsIntentScope : IntentScope → List Nat
  | .ProcessData => uleb128 0

/-- BCS of `IntentMessage<Vec<u8>>`: variant index, little-endian `u64`
timestamp, ULEB128 byte-length, then the raw payload bytes. -/
def bcsIntentMessage (m : IntentMessage) : List Nat :=
  bcsIntentScope m.intent ++ u64le m.timestamp_ms ++ uleb128 m.data.length ++ m.data

/-- The `match intent { 0 => IntentScope::ProcessData, _ => IntentScope::ProcessData }`
coercion from the numeric intent code (lines 165 and 203 of `lib.rs`). -/
def intentScopeOfCode (intent : Nat) : IntentScope :=
  match intent with
  | 0 => IntentScope.ProcessData
  | _ => IntentScope.ProcessData

/-! ## Abstract signature scheme (external fastcrypto Ed25519) -/

/-- Abstract signature scheme standing for the external Ed25519
implementation: keypairs, public-key bytes, signing, verification. -/
structure SigScheme where
  KeyPair : Type
  pubkey : KeyPair → List Nat
  sign : KeyPair → List Nat → List Nat
  verify : List Nat → List Nat → List Nat → Bool

/-- Correctness of the external scheme: a signature produced by a keypair
verifies against that keypair's public key and the signed message. -/
def SigCorrect (S : SigScheme) : Prop :=
  ∀ (kp : S.KeyPair) (m : List Nat), S.verify (S.pubkey kp) (S.sign kp m) m = true

/-! ## FFI entry points -/

/-- `nautilus_get_public_key_hex`: hex of the keypair's public key bytes. -/
def nautilus_get_public_key_hex (S : SigScheme) (kp : S.KeyPair) : String :=
  hexEncode (S.pubkey kp)

/-- `nautilus_sign_intent_message_json` (lines 157–179): build the
`IntentMessageBytes` envelope, BCS-serialize the parallel
`IntentMessage<Vec<u8>>`, sign those bytes, return envelope + hex signature. -/
def nautilus_sign_intent_message_json (S : SigScheme) (kp : S.KeyPair)
    (payload : List Nat) (timestamp_ms : Nat) (intent : Nat) :
    ProcessedDataResponse :=
  let intent_scope := intentScopeOfCode intent
  let intent_msg : IntentMessageBytes :=
    { intent := intent_scope, timestamp_ms := timestamp_ms, data := payload }
  let signing_payload :=
    bcsIntentMessage { intent := intent_scope, timestamp_ms := timestamp_ms, data := payload }
  let sig := S.sign kp signing_payload
  { response := intent_msg, signature := hexEncode sig }

/-- `nautilus_sign_intent_message_bcs` (lines 195–212): build the
`IntentMessage<Vec<u8>>` envelope, BCS-serialize it, sign those bytes,
return hex canonical bytes + hex signature. -/
def nautilus_sign_intent_message_bcs (S : SigScheme) (kp : S.KeyPair)
    (payload : List Nat) (timestamp_ms : Nat) (intent : Nat) :
    SignedBcsResponse :=
  let intent_scope := intentScopeOfCode intent
  let intent_msg : IntentMessage :=
    { intent := intent_scope, timestamp_ms := timestamp_ms, data := payload }
  let signing_payload := bcsIntentMessage intent_msg
  let sig := S.sign kp signing_payload
  { intent_message_bcs := hexEncode signing_payload, signature := hexEncode sig }

/-- `nautilus_free_keypair` (lines 48–52): drop the boxed keypair unless the
pointer is null. The heap of live handles is a pointer-keyed association
list; pointer 0 is NULL. -/
def nautilus_free_keypair {K : Type} (ptr : Nat) (heap : List (Nat × K)) :
    List (Nat × K) :=
  if ptr = 0 then heap
  else heap.filter (fun e => e.1 != ptr)

/-! ## serde_json model

serde's derived encoding: structs become objects with fields in declaration
order, a unit enum variant becomes its name as a string, `u64` becomes a
number, `serde_bytes::ByteBuf` becomes an array of numbers. -/

/-- JSON value AST. -/
inductive Json where
  | str : String → Json
  | num : Nat → Json
  | arr : List Json → Json
  | obj : List (String × Json) → Json

/-- Field lookup on a JSON object (`none` on a non-object or missing key). -/
def Json.field (j : Json) (key : String) : Option Json :=
  match j with
  | .obj fs => fs.lookup key
  | _ => none

/-- serde_json of `IntentScope` (externally tagged unit variant ⇒ its name). -/
def jsonOfIntentScope : IntentScope → Json
  | .ProcessData => Json.str "ProcessData"

/-- serde_json of `IntentMessageBytes`. -/
def jsonOfIntentMessageBytes (m : IntentMessageBytes) : Json :=
  Json.obj
    [("intent", jsonOfIntentScope m.intent),
     ("timestamp_ms", Json.num m.timestamp_ms),
     ("data", Json.arr (m.data.map Json.num))]

/-- serde_json of `ProcessedDataResponse<IntentMessageBytes>`. -/
def jsonOfProcessedDataResponse (r : ProcessedDataResponse) : Json :=
  Json.obj
    [("response", jsonOfIntentMessageBytes r.response),
     ("signature", Json.str r.signature)]

/-- The JSON document the structured entry point serializes and returns. -/
def signJsonAst (S : SigScheme) (kp : S.KeyPair) (payload : List Nat)
    (timestamp_ms : Nat) (intent : Nat) : Json :=
  jsonOfProcessedDataResponse
    (nautilus_sign_intent_message_json S kp payload timestamp_ms intent)

/-! ## NSM attestation driver model

`nsm_api` is external: requests, responses and the driver itself are
modelled abstractly. The driver is an oracle from requests to responses;
`nsm_init` / `nsm_process_request` / `nsm_exit` calls are recorded in an
event trace so that session discipline is provable. -/

/-- The `Request::Attestation` payload sent to the driver. -/
structure Request where
  user_data : Option (List Nat)
  nonce : Option (List Nat)
  public_key : Option (List Nat)
  deriving DecidableEq

/-- Driver responses: an attestation document, a driver error, or any other
response variant of the NSM API. -/
inductive Response where
  | Attestation : (document : List Nat) → Response
  | Error : (code : Nat) → Response
  | Other : Response
  deriving DecidableEq

/-- One driver interaction event. -/
inductive NsmEvent where
  | nsmInit : (fd : Nat) → NsmEvent
  | nsmProcess : (fd : Nat) → (req : Request) → NsmEvent
  | nsmExit : (fd : Nat) → NsmEvent
  deriving DecidableEq

/-- The attestation request built at lines 83–87: no user data, no nonce,
the keypair's public key bytes as the committed field. -/
def attestationRequest (S : SigScheme) (kp : S.KeyPair) : Request :=
  { user_data := none, nonce := none, public_key := some (S.pubkey kp) }

/-- `nautilus_get_attestation` (lines 80–99): open a driver session, send
the attestation request, close the session on both branches, and return the
hex document on `Response::Attestation` or the empty string otherwise.
Returns the C-string result together with the driver event trace. -/
def nautilus_get_attestation (S : SigScheme) (kp : S.KeyPair) (fd : Nat)
    (drv : Request → Response) : String × List NsmEvent :=
  let request := attestationRequest S kp
  let response := drv request
  match response with
  | .Attestation document =>
      (hexEncode document,
       [NsmEvent.nsmInit fd, NsmEvent.nsmProcess fd request, NsmEvent.nsmExit fd])
  | _ =>
      ("", [NsmEvent.nsmInit fd, NsmEvent.nsmProcess fd request, NsmEvent.nsmExit fd])

/-- Sessions still open after a trace: `nsmInit` pushes its fd, `nsmExit`
removes one occurrence of its fd. -/
def sessionStep (acc : List Nat) : NsmEvent → List Nat
  | .nsmInit fd => fd :: acc
  | .nsmProcess _ _ => acc
  | .nsmExit fd => acc.erase fd

/-- File descriptors of driver sessions left open by a trace. -/
def openSessions (evs : List NsmEvent) : List Nat := evs.foldl sessionStep []

/-- The requests a trace sent to the driver, in order. -/
def requestsOf (evs : List NsmEvent) : List Request :=
  evs.filterMap fun e =>
    match e with
    | .nsmProcess _ req => some req
    | _ => none

/-! ## BCS decoder (external `bcs` deserialization, for the cross-check) -/

/-- Read a ULEB128-encoded natural from the front of a byte list. -/
def readUleb : List Nat → Option (Nat × List Nat)
  | [] => none
  | b :: rest =>
    if b < 128 then some (b, rest)
    else
      match readUleb rest with
      | some (n, r) => some (b - 128 + 128 * n, r)
      | none => none

/-- Read a little-endian `u64` (8 bytes) from the front of a byte list. -/
def readU64 : List Nat → Option (Nat × List Nat)
  | b0 :: b1 :: b2 :: b3 :: b4 :: b5 :: b6 :: b7 :: rest =>
      some (b0 + 256 * (b1 + 256 * (b2 + 256 * (b3 + 256 * (b4 + 256 *
        (b5 + 256 * (b6 + 256 * b7)))))), rest)
  | _ => none

/-- Read exactly `k` raw bytes from the front of a byte list. -/
def readBytes (k : Nat) (l : List Nat) : Option (List Nat × List Nat) :=
  if k ≤ l.length then some (l.take k, l.drop k) else none

/-- BCS-deserialize a full `IntentMessage<Vec<u8>>` (no trailing bytes). -/
def decodeIntentMessage (l : List Nat) : Option IntentMessage :=
  match readUleb l with
  | some (0, rest) =>
    match readU64 rest with
    | some (ts, rest2) =>
      match readUleb rest2 with
      | some (len, rest3) =>
        match readBytes len rest3 with
        | some (data, []) =>
            some { intent := IntentScope.ProcessData, timestamp_ms := ts, data := data }
        | _ => none
      | none => none
    | none => none
  | _ => none

/-! ## Encoding lemmas -/

theorem hexValue_hexDigit {n : Nat} (h : n < 16) : hexValue (hexDigit n) = n := by
  revert h; revert n; decide

theorem isLowerHexDigit_hexDigit {n : Nat} (h : n < 16) :
    isLowerHexDigit (hexDigit n) = true := by
  revert h; revert n; decide

theorem hexDecodeChars_hexChars {bs : List Nat} (h : ValidBytes bs) :
    hexDecodeChars (hexChars bs) = bs := by
  induction bs with
  | nil => rfl
  | cons b bs ih =>
    have hb : b < 256 := h b (List.mem_cons_self b bs)
    have hrest : ValidBytes bs := fun x hx => h x (List.mem_cons_of_mem b hx)
    have h1 : b / 16 < 16 := Nat.div_lt_of_lt_mul (by omega)
    have h2 : b % 16 < 16 := Nat.mod_lt b (by omega)
    simp [hexChars, hexDecodeChars, hexValue_hexDigit h1, hexValue_hexDigit h2,
      ih hrest, Nat.div_add_mod]

theorem hexDecode_hexEncode {bs : List Nat} (h : ValidBytes bs) :
    hexDecode (hexEncode bs) = bs := by
  simpa [hexDecode, hexEncode] using hexDecodeChars_hexChars h

theorem hexChars_length (bs : List Nat) : (hexChars bs).length = 2 * bs.length := by
  induction bs with
  | nil => rfl
  | cons b bs ih => simp [hexChars, ih]; omega

theorem hexChars_lower {bs : List Nat} (h : ValidBytes bs) :
    ∀ c ∈ hexChars bs, isLowerHexDigit c = true := by
  induction bs with
  | nil => intro c hc; cases hc
  | cons b bs ih =>
    intro c hc
    have hb : b < 256 := h b (List.mem_cons_self b bs)
    have hrest : ValidBytes bs := fun x hx => h x (List.mem_cons_of_mem b hx)
    have h1 : b / 16 < 16 := Nat.div_lt_of_lt_mul (by omega)
    have h2 : b % 16 < 16 := Nat.mod_lt b (by omega)
    simp [hexChars] at hc
    rcases hc with rfl | rfl | hc
    · exact isLowerHexDigit_hexDigit h1
    · exact isLowerHexDigit_hexDigit h2
    · exact ih hrest c hc

theorem validBytes_uleb128 (n : Nat) : ValidBytes (uleb128 n) := by
  induction n using Nat.strong_induction_on with
  | _ n ih =>
    unfold uleb128
    by_cases h : n < 128
    · simp [h, ValidBytes]; omega
    · simp only [h, dite_false]
      intro b hb
      rcases List.mem_cons.mp hb with rfl | hb
      · omega
      · exact ih (n / 128) (Nat.div_lt_self (by omega) (by omega)) b hb

theorem validBytes_u64le (n : Nat) : ValidBytes (u64le n) := by
  intro b hb
  simp [u64le] at hb
  rcases hb with rfl | rfl | rfl | rfl | rfl | rfl | rfl | rfl <;> omega

theorem validBytes_append {l r : List Nat} (hl : ValidBytes l) (hr : ValidBytes r) :
    ValidBytes (l ++ r) := by
  intro b hb
  rcases List.mem_append.mp hb with h | h
  · exact hl b h
  · exact hr b h

theorem validBytes_bcsIntentMessage {m : IntentMessage} (h : ValidBytes m.data) :
    ValidBytes (bcsIntentMessage m) := by
  cases m with
  | mk intent ts data =>
    cases intent
    exact validBytes_append
      (validBytes_append
        (validBytes_append (validBytes_uleb128 0) (validBytes_u64le ts))
        (validBytes_uleb128 data.length)) h

/-! ## Decoder roundtrip lemmas -/

theorem readUleb_uleb128 (n : Nat) (r : List Nat) :
    readUleb (uleb128 n ++ r) = some (n, r) := by
  induction n using Nat.strong_induction_on with
  | _ n ih =>
    unfold uleb128
    by_cases h : n < 128
    · simp [h, readUleb]
    · simp only [h, dite_false, List.cons_append]
      have : ¬ (n % 128 + 128 < 128) := by omega
      simp [readUleb, this, ih (n / 128) (Nat.div_lt_self (by omega) (by omega))]
      omega

theorem readU64_u64le {n : Nat} (hn : n < 18446744073709551616) (r : List Nat) :
    readU64 (u64le n ++ r) = some (n, r) := by
  simp [u64le, readU64]
  omega

theorem readBytes_append (l r : List Nat) :
    readBytes l.length (l ++ r) = some (l, r) := by
  simp [readBytes, List.take_left, List.drop_left]

theorem decodeIntentMessage_bcs {ts : Nat} (hts : ts < 18446744073709551616)
    (data : List Nat) :
    decodeIntentMessage
      (bcsIntentMessage (IntentMessage.mk IntentScope.ProcessData ts data)) =
      some (IntentMessage.mk IntentScope.ProcessData ts data) := by
  have huleb0 : uleb128 0 = [0] := by unfold uleb128; simp
  have hshape : bcsIntentMessage (IntentMessage.mk IntentScope.ProcessData ts data)
      = 0 :: (u64le ts ++ (uleb128 data.length ++ data)) := by
    simp [bcsIntentMessage, bcsIntentScope, huleb0, List.append_assoc]
  have h0 : readUleb (0 :: (u64le ts ++ (uleb128 data.length ++ data)))
      = some (0, u64le ts ++ (uleb128 data.length ++ data)) := by
    simp [readUleb]
  have hbytes : readBytes data.length data = some (data, []) := by
    have := readBytes_append data []
    rwa [List.append_nil] at this
  rw [hshape]
  simp only [decodeIntentMessage, h0, readU64_u64le hts, readUleb_uleb128, hbytes]

/-! ## Concrete witness scheme

A trivially correct signature scheme used to instantiate hypotheses of the
abstract theorems at concrete inputs: the keypair is its own public key and
a signature is the key followed by the message. -/

def listScheme : SigScheme where
  KeyPair := List Nat
  pubkey := id
  sign := fun kp m => kp ++ m
  verify := fun pk sig m => sig == pk ++ m

theorem listScheme_correct : SigCorrect listScheme := by
  intro kp m
  simp [listScheme]

/-- Every intent code is coerced to `ProcessData` by the `match`. -/
theorem intentScopeOfCode_eq (c : Nat) : intentScopeOfCode c = IntentScope.ProcessData := by
  cases c <;> rfl

/-- A signature over message `m`, round-tripped through hex, verifies against
the hex-round-tripped public key. -/
theorem verify_signed_payload (S : SigScheme) (kp : S.KeyPair) (m : List Nat)
    (hc : SigCorrect S) (hpk : ValidBytes (S.pubkey kp))
    (hsig : ValidBytes (S.sign kp m)) :
    S.verify (hexDecode (hexEncode (S.pubkey kp)))
      (hexDecode (hexEncode (S.sign kp m))) m = true := by
  rw [hexDecode_hexEncode hpk, hexDecode_hexEncode hsig]
  exact hc kp m

/-- The payload `b"hello"`. -/
def helloBytes : List Nat := [104, 101, 108, 108, 111]

/-! ## Claims -/

/-- Claim C1: for every keypair, payload, timestamp and intent code, the
signature produced by either signing entry point verifies, under the
signature scheme's verification, against the exported public key
(`nautilus_get_public_key_hex`, hex-decoded) and the canonical BCS
serialization of the `IntentMessage` envelope. -/
theorem c1_sign_verifies (S : SigScheme) (kp : S.KeyPair) (payload : List Nat)
    (ts intent : Nat) (hc : SigCorrect S) (hpk : ValidBytes (S.pubkey kp))
    (hsig : ValidBytes (S.sign kp
      (bcsIntentMessage ⟨intentScopeOfCode intent, ts, payload⟩))) :
    S.verify (hexDecode (nautilus_get_public_key_hex S kp))
        (hexDecode (nautilus_sign_intent_message_json S kp payload ts intent).signature)
        (bcsIntentMessage ⟨intentScopeOfCode intent, ts, payload⟩) = true ∧
    S.verify (hexDecode (nautilus_get_public_key_hex S kp))
        (hexDecode (nautilus_sign_intent_message_bcs S kp payload ts intent).signature)
        (bcsIntentMessage ⟨intentScopeOfCode intent, ts, payload⟩) = true := by
  exact ⟨verify_signed_payload S kp _ hc hpk hsig,
         verify_signed_payload S kp _ hc hpk hsig⟩

/-- Claim C1 witness: the property at a concrete keypair and inputs. -/
theorem c1_sign_verifies_witness :
    listScheme.verify (hexDecode (nautilus_get_public_key_hex listScheme [1, 2]))
        (hexDecode (nautilus_sign_intent_message_json listScheme [1, 2]
          helloBytes 1700000000000 0).signature)
        (bcsIntentMessage ⟨intentScopeOfCode 0, 1700000000000, helloBytes⟩) = true ∧
    listScheme.verify (hexDecode (nautilus_get_public_key_hex listScheme [1, 2]))
        (hexDecode (nautilus_sign_intent_message_bcs listScheme [1, 2]
          helloBytes 1700000000000 0).signature)
        (bcsIntentMessage ⟨intentScopeOfCode 0, 1700000000000, helloBytes⟩) = true :=
  c1_sign_verifies listScheme [1, 2] helloBytes 1700000000000 0
    listScheme_correct (by decide)
    (validBytes_append (by decide)
      (validBytes_bcsIntentMessage (by decide)))

/-- Claim C2: for identical inputs, both entry points sign the byte-identical
canonical BCS serialization, the flat entry point's hex bytes are exactly
that serialization, and decoding them recovers the structured entry point's
logical envelope (same intent, timestamp and data bytes). -/
theorem c2_cross_encoding (S : SigScheme) (kp : S.KeyPair) (payload : List Nat)
    (ts intent : Nat) (hp : ValidBytes payload)
    (hts : ts < 18446744073709551616) :
    (nautilus_sign_intent_message_json S kp payload ts intent).signature
      = hexEncode (S.sign kp (bcsIntentMessage ⟨intentScopeOfCode intent, ts, payload⟩)) ∧
    (nautilus_sign_intent_message_bcs S kp payload ts intent).signature
      = hexEncode (S.sign kp (bcsIntentMessage ⟨intentScopeOfCode intent, ts, payload⟩)) ∧
    (nautilus_sign_intent_message_bcs S kp payload ts intent).intent_message_bcs
      = hexEncode (bcsIntentMessage ⟨intentScopeOfCode intent, ts, payload⟩) ∧
    decodeIntentMessage
        (hexDecode (nautilus_sign_intent_message_bcs S kp payload ts intent).intent_message_bcs)
      = some ⟨(nautilus_sign_intent_message_json S kp payload ts intent).response.intent,
              (nautilus_sign_intent_message_json S kp payload ts intent).response.timestamp_ms,
              (nautilus_sign_intent_message_json S kp payload ts intent).response.data⟩ := by
  refine ⟨rfl, rfl, rfl, ?_⟩
  have hcode := intentScopeOfCode_eq intent
  show decodeIntentMessage (hexDecode (hexEncode
      (bcsIntentMessage ⟨intentScopeOfCode intent, ts, payload⟩)))
    = some ⟨intentScopeOfCode intent, ts, payload⟩
  rw [hexDecode_hexEncode (validBytes_bcsIntentMessage hp), hcode]
  exact decodeIntentMessage_bcs hts payload

/-- Claim C2 witness: the cross-encoding property at concrete inputs. -/
theorem c2_cross_encoding_witness :
    (nautilus_sign_intent_message_json listScheme [3] [10, 20] 7 0).signature
      = hexEncode (listScheme.sign [3] (bcsIntentMessage ⟨intentScopeOfCode 0, 7, [10, 20]⟩)) ∧
    (nautilus_sign_intent_message_bcs listScheme [3] [10, 20] 7 0).signature
      = hexEncode (listScheme.sign [3] (bcsIntentMessage ⟨intentScopeOfCode 0, 7, [10, 20]⟩)) ∧
    (nautilus_sign_intent_message_bcs listScheme [3] [10, 20] 7 0).intent_message_bcs
      = hexEncode (bcsIntentMessage ⟨intentScopeOfCode 0, 7, [10, 20]⟩) ∧
    decodeIntentMessage
        (hexDecode (nautilus_sign_intent_message_bcs listScheme [3] [10, 20] 7 0).intent_message_bcs)
      = some ⟨(nautilus_sign_intent_message_json listScheme [3] [10, 20] 7 0).response.intent,
              (nautilus_sign_intent_message_json listScheme [3] [10, 20] 7 0).response.timestamp_ms,
              (nautilus_sign_intent_message_json listScheme [3] [10, 20] 7 0).response.data⟩ :=
  c2_cross_encoding listScheme [3] [10, 20] 7 0 (by decide) (by decide)

/-- Claim C3 counterexample: with payload `b"hello"`, timestamp
1700000000000 and intent code 0, the `intent` field of the returned JSON
envelope is the serde-rendered variant name, not the number 0: the claim as
stated fails at this concrete input. -/
theorem c3_counterexample :
    ¬ (((signJsonAst listScheme [1, 2] helloBytes 1700000000000 0).field
          "response").bind (fun e => Json.field e "intent")
        = some (Json.num 0)) := by
  intro h
  have heval : ((signJsonAst listScheme [1, 2] helloBytes 1700000000000 0).field
      "response").bind (fun e => Json.field e "intent")
      = some (Json.str "ProcessData") := rfl
  rw [heval] at h
  injection h with h'
  exact Json.noConfusion h'

/-- Claim C3 (amended): with payload `b"hello"`, timestamp 1700000000000 and
intent code 0, the structured entry point's JSON envelope carries
`intent` = `"ProcessData"` (serde's rendering of the code-0 variant) and
`timestamp_ms` = 1700000000000, with a hex signature that verifies against
the handle's exported public key on the canonical BCS bytes. -/
theorem c3_sign_hello (S : SigScheme) (kp : S.KeyPair) (hc : SigCorrect S)
    (hpk : ValidBytes (S.pubkey kp))
    (hsig : ValidBytes (S.sign kp
      (bcsIntentMessage ⟨IntentScope.ProcessData, 1700000000000, helloBytes⟩))) :
    ((signJsonAst S kp helloBytes 1700000000000 0).field "response").bind
        (fun e => Json.field e "intent") = some (Json.str "ProcessData") ∧
    ((signJsonAst S kp helloBytes 1700000000000 0).field "response").bind
        (fun e => Json.field e "timestamp_ms") = some (Json.num 1700000000000) ∧
    S.verify (hexDecode (nautilus_get_public_key_hex S kp))
        (hexDecode (nautilus_sign_intent_message_json S kp
          helloBytes 1700000000000 0).signature)
        (bcsIntentMessage ⟨IntentScope.ProcessData, 1700000000000, helloBytes⟩) = true := by
  refine ⟨rfl, rfl, ?_⟩
  exact verify_signed_payload S kp _ hc hpk hsig

/-- Claim C3 witness: the amended scenario at a concrete keypair. -/
theorem c3_sign_hello_witness :
    ((signJsonAst listScheme [9, 8] helloBytes 1700000000000 0).field
        "response").bind (fun e => Json.field e "intent")
      = some (Json.str "ProcessData") ∧
    ((signJsonAst listScheme [9, 8] helloBytes 1700000000000 0).field
        "response").bind (fun e => Json.field e "timestamp_ms")
      = some (Json.num 1700000000000) ∧
    listScheme.verify (hexDecode (nautilus_get_public_key_hex listScheme [9, 8]))
        (hexDecode (nautilus_sign_intent_message_json listScheme [9, 8]
          helloBytes 1700000000000 0).signature)
        (bcsIntentMessage ⟨IntentScope.ProcessData, 1700000000000, helloBytes⟩) = true :=
  c3_sign_hello listScheme [9, 8] listScheme_correct (by decide)
    (validBytes_append (by decide)
      (validBytes_bcsIntentMessage (by decide)))

/-- Claim C4: an intent code naming no known `IntentScope` variant (any code
other than 0) is coerced to the default `ProcessData`, so both entry points
produce outputs identical to those for intent code 0 on the same inputs. -/
theorem c4_unknown_intent_coerced (S : SigScheme) (kp : S.KeyPair)
    (payload : List Nat) (ts code : Nat) (h : code ≠ 0) :
    nautilus_sign_intent_message_json S kp payload ts code
      = nautilus_sign_intent_message_json S kp payload ts 0 ∧
    nautilus_sign_intent_message_bcs S kp payload ts code
      = nautilus_sign_intent_message_bcs S kp payload ts 0 := by
  have hcode := intentScopeOfCode_eq code
  constructor <;>
    simp [nautilus_sign_intent_message_json, nautilus_sign_intent_message_bcs,
      hcode, intentScopeOfCode]

/-- Claim C4 witness: intent code 7 yields the same outputs as code 0. -/
theorem c4_unknown_intent_coerced_witness :
    nautilus_sign_intent_message_json listScheme [1] [2, 3] 11 7
      = nautilus_sign_intent_message_json listScheme [1] [2, 3] 11 0 ∧
    nautilus_sign_intent_message_bcs listScheme [1] [2, 3] 11 7
      = nautilus_sign_intent_message_bcs listScheme [1] [2, 3] 11 0 :=
  c4_unknown_intent_coerced listScheme [1] [2, 3] 11 7 (by decide)

/-- Claim C5: `nautilus_get_attestation` returns the hex encoding of the
driver's document exactly on an `Attestation` response, and the empty string
on every other driver response — never a partial document, never a
driver-specific error. -/
theorem c5_attestation_result (S : SigScheme) (kp : S.KeyPair) (fd : Nat)
    (drv : Request → Response) :
    (nautilus_get_attestation S kp fd drv).1
      = (match drv (attestationRequest S kp) with
         | Response.Attestation document => hexEncode document
         | _ => "") := by
  rcases hresp : drv (attestationRequest S kp) with document | code | _ <;>
    simp [nautilus_get_attestation, hresp]

/-- Claim C6: on every execution path of `nautilus_get_attestation` the
driver session is closed exactly once via `nsm_exit`, and no session remains
open when the function returns. -/
theorem c6_attestation_session_closed (S : SigScheme) (kp : S.KeyPair)
    (fd : Nat) (drv : Request → Response) :
    ((nautilus_get_attestation S kp fd drv).2).count (NsmEvent.nsmExit fd) = 1 ∧
    openSessions (nautilus_get_attestation S kp fd drv).2 = [] := by
  rcases hresp : drv (attestationRequest S kp) with document | code | _ <;>
    simp [nautilus_get_attestation, hresp, openSessions, sessionStep,
      List.count_cons]

/-- Claim C7: the exported public key hex of a 32-byte public key is a
64-character string of lowercase hex digits, and repeated calls on the same
handle return equal strings (the accessor is a pure function of the key). -/
theorem c7_public_key_hex_format (S : SigScheme) (kp : S.KeyPair)
    (hlen : (S.pubkey kp).length = 32) (hval : ValidBytes (S.pubkey kp)) :
    (nautilus_get_public_key_hex S kp).length = 64 ∧
    (∀ c ∈ (nautilus_get_public_key_hex S kp).data, isLowerHexDigit c = true) ∧
    nautilus_get_public_key_hex S kp = nautilus_get_public_key_hex S kp := by
  refine ⟨?_, ?_, rfl⟩
  · show (hexChars (S.pubkey kp)).length = 64
    rw [hexChars_length, hlen]
  · show ∀ c ∈ hexChars (S.pubkey kp), isLowerHexDigit c = true
    exact hexChars_lower hval

/-- Claim C7 witness: the format property at a concrete 32-byte key. -/
theorem c7_public_key_hex_format_witness :
    (nautilus_get_public_key_hex listScheme (List.range 32)).length = 64 ∧
    (∀ c ∈ (nautilus_get_public_key_hex listScheme (List.range 32)).data,
      isLowerHexDigit c = true) ∧
    nautilus_get_public_key_hex listScheme (List.range 32)
      = nautilus_get_public_key_hex listScheme (List.range 32) :=
  c7_public_key_hex_format listScheme (List.range 32) (by decide) (by decide)

/-- Claim C8: freeing a NULL keypair pointer is a no-op — the heap of live
handles is unchanged. -/
theorem c8_free_null_noop {K : Type} (heap : List (Nat × K)) :
    nautilus_free_keypair 0 heap = heap := by
  simp [nautilus_free_keypair]

/-- Claim C9: the attestation request commits, as its `public_key` field,
exactly the same bytes that `nautilus_get_public_key_hex` hex-encodes; the
call sends exactly that one request to the driver. -/
theorem c9_attestation_binds_pubkey (S : SigScheme) (kp : S.KeyPair)
    (fd : Nat) (drv : Request → Response) (hval : ValidBytes (S.pubkey kp)) :
    (attestationRequest S kp).public_key = some (S.pubkey kp) ∧
    requestsOf (nautilus_get_attestation S kp fd drv).2
      = [attestationRequest S kp] ∧
    hexDecode (nautilus_get_public_key_hex S kp) = S.pubkey kp := by
  refine ⟨rfl, ?_, hexDecode_hexEncode hval⟩
  rcases hresp : drv (attestationRequest S kp) with document | code | _ <;>
    simp [nautilus_get_attestation, hresp, requestsOf]

/-- Claim C9 witness: the binding property at a concrete keypair. -/
theorem c9_attestation_binds_pubkey_witness :
    (attestationRequest listScheme [1, 2, 3]).public_key
      = some (listScheme.pubkey [1, 2, 3]) ∧
    requestsOf (nautilus_get_attestation listScheme [1, 2, 3] 5
        (fun _ => Response.Other)).2
      = [attestationRequest listScheme [1, 2, 3]] ∧
    hexDecode (nautilus_get_public_key_hex listScheme [1, 2, 3])
      = listScheme.pubkey [1, 2, 3] :=
  c9_attestation_binds_pubkey listScheme [1, 2, 3] 5 (fun _ => Response.Other)
    (by decide)

/-- Claim C10: the attestation request always carries `user_data = none` and
`nonce = none`, and two sequential calls on the same unchanged handle send
identical request values to the driver, whatever the driver answers. -/
theorem c10_attestation_request_fields (S : SigScheme) (kp : S.KeyPair)
    (fd1 fd2 : Nat) (drv1 drv2 : Request → Response) :
    (attestationRequest S kp).user_data = none ∧
    (attestationRequest S kp).nonce = none ∧
    requestsOf (nautilus_get_attestation S kp fd1 drv1).2
      = requestsOf (nautilus_get_attestation S kp fd2 drv2).2 := by
  refine ⟨rfl, rfl, ?_⟩
  rcases h1 : drv1 (attestationRequest S kp) with d1 | c1 | _ <;>
    rcases h2 : drv2 (attestationRequest S kp) with d2 | c2 | _ <;>
      simp [nautilus_get_attestation, h1, h2, requestsOf]

end Nautilus
